import Mathlib

/-!
A shallow embedding of `src/automated_skeleton.py` (the `RunOs` automation
skeleton of the youre-the-os repository) and a verification of the spec's
claims against it.

The Python file defines a class `RunOs` with

* class-level collections `procs`, `in_cpu`, `wait_io`, `wait_page`,
  `ram_pages`, `swap_pages` (all initialised to empty lists and, in this
  skeleton, never written by any method),
* an action queue `_event_queue` together with the helpers `move_page`,
  `move_process` and `do_io`, each of which appends one action dictionary
  to `_event_queue`,
* twelve handler methods `handle_<EVENT_TYPE>` whose bodies consist of a
  docstring only, i.e. each handler is a no-op,
* `__call__(events)`, which clears `_event_queue`, looks up
  `handle_<event.etype>` via `getattr` (ignoring the event when no such
  attribute exists) for each event in order, and returns `_event_queue`,
* the module-level instantiation `run_os = RunOs()`; the class has no
  `__init__` and reads none of the globals `num_cpus`, `num_ram_pages`,
  `num_swap_pages`.

Python lists become Lean lists, the event dictionaries become a record with
every field named by the handlers' docstrings, the action dictionaries an
inductive with the three shapes the helpers build, and the string-keyed
`getattr` dispatch a match on the `etype` string with a no-op default.
-/

namespace AutomatedSkeleton

/-- An event delivered by the game.  The Python side passes objects whose
`etype` selects the handler; the remaining fields are the union of the
kind-specific fields documented on the twelve handlers (`pid`, `idx`,
`swap`, `use`, `cpu`, `io_count`, `starvation_level`, `waiting_for_io`,
`waiting_for_page`).  `etype` is an arbitrary string, so batches may carry
unknown kinds. -/
structure Event where
  etype : String
  pid : Nat
  idx : Nat
  swap : Bool
  use : Bool
  cpu : Bool
  io_count : Nat
  starvation_level : Nat
  waiting_for_io : Bool
  waiting_for_page : Bool
deriving DecidableEq

/-- An event with the given `etype` and all kind-specific fields zeroed. -/
def mkEvent (t : String) : Event :=
  ⟨t, 0, 0, false, false, false, 0, 0, false, false⟩

/-- An action appended to `RunOs._event_queue` by the three helpers:
`move_page` appends `{'type': 'page', 'pid': pid, 'idx': idx}`,
`move_process` appends `{'type': 'process', 'pid': pid}`, and
`do_io` appends `{'type': 'io_queue'}`. -/
inductive Action where
  | movePage (pid idx : Nat)
  | moveProcess (pid : Nat)
  | dispatchIo
deriving DecidableEq

/-- The state of the `RunOs` object: the six mirror collections the class
body declares (`procs`, `in_cpu`, `wait_io`, `wait_page`, `ram_pages`,
`swap_pages`) plus the action queue `_event_queue`.  The Python lists are
untyped; following the file's documentation we type the process-tracking
lists by pid and the page-tracking lists by the page key `(pid, idx)`. -/
structure RunOsState where
  procs : List Nat
  in_cpu : List Nat
  wait_io : List Nat
  wait_page : List Nat
  ram_pages : List (Nat × Nat)
  swap_pages : List (Nat × Nat)
  _event_queue : List Action
deriving DecidableEq

/-- `RunOs.move_page`: append a move-page action to `_event_queue`. -/
def move_page (s : RunOsState) (pid idx : Nat) : RunOsState :=
  { s with _event_queue := s._event_queue ++ [Action.movePage pid idx] }

/-- `RunOs.move_process`: append a move-process action to `_event_queue`. -/
def move_process (s : RunOsState) (pid : Nat) : RunOsState :=
  { s with _event_queue := s._event_queue ++ [Action.moveProcess pid] }

/-- `RunOs.do_io`: append an io-dispatch action to `_event_queue`. -/
def do_io (s : RunOsState) : RunOsState :=
  { s with _event_queue := s._event_queue ++ [Action.dispatchIo] }

/-- `RunOs.handle_IO_QUEUE`: the body is a docstring only, a no-op. -/
def handle_IO_QUEUE (s : RunOsState) (_e : Event) : RunOsState := s

/-- `RunOs.handle_PAGE_NEW`: the body is a docstring only, a no-op. -/
def handle_PAGE_NEW (s : RunOsState) (_e : Event) : RunOsState := s

/-- `RunOs.handle_PAGE_USE`: the body is a docstring only, a no-op. -/
def handle_PAGE_USE (s : RunOsState) (_e : Event) : RunOsState := s

/-- `RunOs.handle_PAGE_SWAP`: the body is a docstring only, a no-op. -/
def handle_PAGE_SWAP (s : RunOsState) (_e : Event) : RunOsState := s

/-- `RunOs.handle_PAGE_FREE`: the body is a docstring only, a no-op. -/
def handle_PAGE_FREE (s : RunOsState) (_e : Event) : RunOsState := s

/-- `RunOs.handle_PROC_NEW`: the body is a docstring only, a no-op. -/
def handle_PROC_NEW (s : RunOsState) (_e : Event) : RunOsState := s

/-- `RunOs.handle_PROC_CPU`: the body is a docstring only, a no-op. -/
def handle_PROC_CPU (s : RunOsState) (_e : Event) : RunOsState := s

/-- `RunOs.handle_PROC_STARV`: the body is a docstring only, a no-op. -/
def handle_PROC_STARV (s : RunOsState) (_e : Event) : RunOsState := s

/-- `RunOs.handle_PROC_WAIT_IO`: the body is a docstring only, a no-op. -/
def handle_PROC_WAIT_IO (s : RunOsState) (_e : Event) : RunOsState := s

/-- `RunOs.handle_PROC_WAIT_PAGE`: the body is a docstring only, a no-op. -/
def handle_PROC_WAIT_PAGE (s : RunOsState) (_e : Event) : RunOsState := s

/-- `RunOs.handle_PROC_TERM`: the body is a docstring only, a no-op. -/
def handle_PROC_TERM (s : RunOsState) (_e : Event) : RunOsState := s

/-- `RunOs.handle_PROC_KILL`: the body is a docstring only, a no-op. -/
def handle_PROC_KILL (s : RunOsState) (_e : Event) : RunOsState := s

/-- The twelve event-type strings for which `RunOs` has a handler
attribute `handle_<etype>`. -/
def knownEtypes : List String :=
  ["IO_QUEUE", "PAGE_NEW", "PAGE_USE", "PAGE_SWAP", "PAGE_FREE",
   "PROC_NEW", "PROC_CPU", "PROC_STARV", "PROC_WAIT_IO", "PROC_WAIT_PAGE",
   "PROC_TERM", "PROC_KILL"]

/-- The per-event dispatch inside `RunOs.__call__`:
`handler = getattr(self, f"handle_{event.etype}", None)`; when the handler
attribute exists it is invoked, otherwise (`handler is None`) the event is
ignored. -/
def dispatch (s : RunOsState) (e : Event) : RunOsState :=
  match e.etype with
  | "IO_QUEUE" => handle_IO_QUEUE s e
  | "PAGE_NEW" => handle_PAGE_NEW s e
  | "PAGE_USE" => handle_PAGE_USE s e
  | "PAGE_SWAP" => handle_PAGE_SWAP s e
  | "PAGE_FREE" => handle_PAGE_FREE s e
  | "PROC_NEW" => handle_PROC_NEW s e
  | "PROC_CPU" => handle_PROC_CPU s e
  | "PROC_STARV" => handle_PROC_STARV s e
  | "PROC_WAIT_IO" => handle_PROC_WAIT_IO s e
  | "PROC_WAIT_PAGE" => handle_PROC_WAIT_PAGE s e
  | "PROC_TERM" => handle_PROC_TERM s e
  | "PROC_KILL" => handle_PROC_KILL s e
  | _ => s

/-- `RunOs.__call__(events)`: clear `_event_queue`, dispatch each event in
order, and return `_event_queue` (paired here with the post-call object
state, which Python keeps implicitly on `self`). -/
def call (s : RunOsState) (events : List Event) : RunOsState × List Action :=
  let s1 := events.foldl dispatch { s with _event_queue := [] }
  (s1, s1._event_queue)

/-- The per-event dispatch with the Python exception channel made explicit:
attribute lookup via `getattr` with a `None` default cannot raise, and every
handler body is empty (a docstring), so no event can raise.  Each branch
therefore returns `Except.ok`. -/
def dispatchE (s : RunOsState) (e : Event) : Except String RunOsState :=
  match e.etype with
  | "IO_QUEUE" => Except.ok (handle_IO_QUEUE s e)
  | "PAGE_NEW" => Except.ok (handle_PAGE_NEW s e)
  | "PAGE_USE" => Except.ok (handle_PAGE_USE s e)
  | "PAGE_SWAP" => Except.ok (handle_PAGE_SWAP s e)
  | "PAGE_FREE" => Except.ok (handle_PAGE_FREE s e)
  | "PROC_NEW" => Except.ok (handle_PROC_NEW s e)
  | "PROC_CPU" => Except.ok (handle_PROC_CPU s e)
  | "PROC_STARV" => Except.ok (handle_PROC_STARV s e)
  | "PROC_WAIT_IO" => Except.ok ( handle_PROC_WAIT_IO s e)
  | "PROC_WAIT_PAGE" => Except.ok (handle_PROC_WAIT_PAGE s e)
  | "PROC_TERM" => Except.ok (handle_PROC_TERM s e)
  | "PROC_KILL" => Except.ok (handle_PROC_KILL s e)
  | _ => Except.ok s

/-- `RunOs.__call__` with the exception channel made explicit. -/
def callE (s : RunOsState) (events : List Event) :
    Except String (RunOsState × List Action) := do
  let s1 ← events.foldlM dispatchE { s with _event_queue := [] }
  return (s1, s1._event_queue)

/-- The startup configuration: the three globals the game passes
(`num_cpus`, `num_ram_pages`, `num_swap_pages`). -/
structure Config where
  num_cpus : Nat
  num_ram_pages : Nat
  num_swap_pages : Nat
deriving DecidableEq

/-- The state of a freshly constructed `RunOs` object: the class body
initialises every collection to the empty list. -/
def initialState : RunOsState :=
  ⟨[], [], [], [], [], [], []⟩

/-- `run_os = RunOs()`: module-level construction of the agent.  The class
defines no `__init__` and reads none of the configuration globals, so
construction performs no validation and cannot fail; the result is the
all-empty state whatever the configuration. -/
def initRunOs (_cfg : Config) : Except String RunOsState :=
  Except.ok initialState

/-- Number of mirrored pages recorded as resident in RAM. -/
def ramCount (s : RunOsState) : Nat := s.ram_pages.length

/-- Number of mirrored pages recorded as resident in swap. -/
def swapCount (s : RunOsState) : Nat := s.swap_pages.length

/-- Number of mirrored processes recorded as occupying a CPU. -/
def onCpuCount (s : RunOsState) : Nat := s.in_cpu.length

/-- Number of move-page actions for the key `(pid, idx)` in a batch. -/
def countMovePage (acts : List Action) (pid idx : Nat) : Nat :=
  (acts.filter (fun a => a = Action.movePage pid idx)).length

/-- Number of move-process actions for `pid` in a batch. -/
def countMoveProcess (acts : List Action) (pid : Nat) : Nat :=
  (acts.filter (fun a => a = Action.moveProcess pid)).length

/-- Number of io-dispatch actions in a batch. -/
def countDispatchIo (acts : List Action) : Nat :=
  (acts.filter (fun a => a = Action.dispatchIo)).length

/-- The states of the agent reachable from construction by any sequence of
invocations of `__call__` with arbitrary event batches. -/
inductive Reachable : RunOsState → Prop
  | init : Reachable initialState
  | step (s : RunOsState) (events : List Event) (h : Reachable s) :
      Reachable (call s events).1

theorem dispatch_eq (s : RunOsState) (e : Event) : dispatch s e = s := by
  unfold dispatch
  split <;> rfl

theorem foldl_dispatch (events : List Event) (s : RunOsState) :
    events.foldl dispatch s = s := by
  induction events generalizing s with
  | nil => rfl
  | cons e es ih => rw [List.foldl_cons, dispatch_eq, ih]

theorem call_eq (s : RunOsState) (events : List Event) :
    call s events = ({ s with _event_queue := [] }, []) := by
  unfold call
  rw [foldl_dispatch]

theorem reachable_mirror (s : RunOsState) (h : Reachable s) :
    s.procs = [] ∧ s.in_cpu = [] ∧ s.wait_io = [] ∧ s.wait_page = [] ∧
      s.ram_pages = [] ∧ s.swap_pages = [] := by
  induction h with
  | init => exact ⟨rfl, rfl, rfl, rfl, rfl, rfl⟩
  | step s' events _ ih => rw [call_eq]; exact ih

theorem dispatchE_eq (s : RunOsState) (e : Event) :
    dispatchE s e = Except.ok s := by
  unfold dispatchE
  split <;> rfl

theorem foldlM_dispatchE (events : List Event) (s : RunOsState) :
    events.foldlM dispatchE s = Except.ok s := by
  induction events generalizing s with
  | nil => rfl
  | cons e es ih => rw [List.foldlM_cons, dispatchE_eq]; exact ih s

theorem callE_eq (s : RunOsState) (events : List Event) :
    callE s events = Except.ok (call s events) := by
  unfold callE
  rw [foldlM_dispatchE, call_eq]
  rfl

/-- C1: for every reachable state of the agent (any sequence of event
batches applied from the initial state) and any session configuration, the
number of mirrored pages recorded in RAM is at most `num_ram_pages` and the
number of mirrored pages recorded in swap is at most `num_swap_pages`. -/
theorem C1_page_capacity_invariant (cfg : Config) (s : RunOsState)
    (h : Reachable s) :
    ramCount s ≤ cfg.num_ram_pages ∧ swapCount s ≤ cfg.num_swap_pages := by
  obtain ⟨-, -, -, -, hr, hw⟩ := reachable_mirror s h
  simp [ramCount, swapCount, hr, hw]

theorem C1_page_capacity_invariant_witness :
    ramCount initialState ≤ (Config.mk 1 2 3).num_ram_pages ∧
      swapCount initialState ≤ (Config.mk 1 2 3).num_swap_pages :=
  C1_page_capacity_invariant (Config.mk 1 2 3) initialState Reachable.init

/-- C2: for every reachable state of the agent and any session
configuration, the number of mirrored processes recorded as occupying a CPU
is at most `num_cpus`. -/
theorem C2_cpu_capacity_invariant (cfg : Config) (s : RunOsState)
    (h : Reachable s) :
    onCpuCount s ≤ cfg.num_cpus := by
  obtain ⟨-, hc, -, -, -, -⟩ := reachable_mirror s h
  simp [onCpuCount, hc]

theorem C2_cpu_capacity_invariant_witness :
    onCpuCount initialState ≤ (Config.mk 1 2 3).num_cpus :=
  C2_cpu_capacity_invariant (Config.mk 1 2 3) initialState Reachable.init

/-- C3: on every invocation from a reachable state, whatever the pending
I/O queue depth `d` may be: if `d > 0` and at least one mirrored process is
recorded as waiting for I/O then the returned batch contains exactly one
io-dispatch action, and if `d = 0` or no mirrored process is recorded as
waiting for I/O then the returned batch contains none.  (The skeleton
mirrors no queue-depth scalar, so the statement quantifies over every
possible depth; in every reachable state the waiting-for-I/O collection is
empty and every returned batch is empty, so both branches hold.) -/
theorem C3_io_dispatch_policy (s : RunOsState) (h : Reachable s)
    (events : List Event) (d : Nat) :
    (0 < d ∧ s.wait_io ≠ [] → countDispatchIo (call s events).2 = 1) ∧
      (d = 0 ∨ s.wait_io = [] → countDispatchIo (call s events).2 = 0) := by
  obtain ⟨-, -, hio, -, -, -⟩ := reachable_mirror s h
  refine ⟨fun hd => absurd hio hd.2, fun _ => ?_⟩
  rw [call_eq]
  rfl

theorem C3_io_dispatch_policy_witness :
    (0 < 0 ∧ initialState.wait_io ≠ [] →
        countDispatchIo (call initialState []).2 = 1) ∧
      (0 = 0 ∨ initialState.wait_io = [] →
        countDispatchIo (call initialState []).2 = 0) :=
  C3_io_dispatch_policy initialState Reachable.init [] 0

/-- C4: on every invocation the returned action batch contains at most one
move-page action per page key `(pid, idx)`, at most one move-process action
per `pid`, and at most one io-dispatch action.  In this skeleton no handler
ever requests an action, so every returned batch is in fact empty and the
per-key bounds hold trivially; in particular the situation of several
requests for the same key within one tick never arises. -/
theorem C4_no_duplicate_actions (s : RunOsState) (events : List Event) :
    (call s events).2 = [] ∧
      (∀ pid idx, countMovePage (call s events).2 pid idx ≤ 1) ∧
      (∀ pid, countMoveProcess (call s events).2 pid ≤ 1) ∧
      countDispatchIo (call s events).2 ≤ 1 := by
  rw [call_eq]
  exact ⟨rfl, fun _ _ => Nat.zero_le 1, fun _ => Nat.zero_le 1, Nat.zero_le 1⟩

/-- C5: an event whose `etype` is not one of the twelve known event kinds
is ignored by `__call__`: removing it from the batch changes neither the
resulting state nor the returned action batch, and the surrounding events
are still processed. -/
theorem C5_unknown_events_ignored (s : RunOsState) (pre post : List Event)
    (e : Event) (_h : e.etype ∉ knownEtypes) :
    call s (pre ++ e :: post) = call s (pre ++ post) := by
  rw [call_eq, call_eq]

theorem C5_unknown_events_ignored_witness :
    call initialState ([] ++ mkEvent "BOGUS" :: [mkEvent "PROC_NEW"]) =
      call initialState ([] ++ [mkEvent "PROC_NEW"]) :=
  C5_unknown_events_ignored initialState [] [mkEvent "PROC_NEW"]
    (mkEvent "BOGUS") (by decide)

/-- C6: an invocation of the agent never raises an exception across the
boundary: with the Python exception channel made explicit, `__call__`
always returns `Except.ok` of the ordinary result, for every prior state
and every event batch (including batches with anomalous or unknown
events). -/
theorem C6_step_never_throws (s : RunOsState) (events : List Event) :
    callE s events = Except.ok (call s events) :=
  callE_eq s events

/-- C7 counterexample: the claim says a non-positive CPU count makes
initialization fail, but `RunOs` has no `__init__` and reads none of the
configuration globals: with `num_cpus = 0` (and positive page capacities)
construction still succeeds. -/
theorem C7_counterexample :
    (Config.mk 0 1 1).num_cpus = 0 ∧
      initRunOs (Config.mk 0 1 1) = Except.ok initialState :=
  ⟨rfl, rfl⟩

/-- C7 (amended): initialization of the agent never fails: `run_os =
RunOs()` performs no validation of the startup scalars, so it succeeds for
every configuration, non-positive counts included, and invocations are
accepted afterwards. -/
theorem C7_init_never_fails (cfg : Config) :
    initRunOs cfg = Except.ok initialState :=
  rfl

/-- C8: applying any single event twice in immediate succession from a
reachable state yields the same mirror state as applying it once; the
second application is a no-op. -/
theorem C8_event_idempotent (s : RunOsState) (_h : Reachable s) (e : Event) :
    dispatch (dispatch s e) e = dispatch s e := by
  rw [dispatch_eq, dispatch_eq]

theorem C8_event_idempotent_witness :
    dispatch (dispatch initialState (mkEvent "PROC_NEW")) (mkEvent "PROC_NEW") =
      dispatch initialState (mkEvent "PROC_NEW") :=
  C8_event_idempotent initialState Reachable.init (mkEvent "PROC_NEW")

/-- C9: the agent is deterministic: two invocations from equal prior states
with equal event batches return equal action batches and leave equal
states. -/
theorem C9_deterministic (s1 s2 : RunOsState) (evs1 evs2 : List Event)
    (hs : s1 = s2) (he : evs1 = evs2) :
    call s1 evs1 = call s2 evs2 := by
  rw [hs, he]

theorem C9_deterministic_witness :
    call initialState [mkEvent "IO_QUEUE"] = call initialState [mkEvent "IO_QUEUE"] :=
  C9_deterministic initialState initialState [mkEvent "IO_QUEUE"]
    [mkEvent "IO_QUEUE"] rfl rfl

/-- C10: every invocation leaves all six mirror collections unchanged, and
the returned batch is exactly the action queue accumulated during that
invocation: the queue is cleared at entry, so the output does not depend on
the queue left over from a previous invocation (and, the handlers
requesting nothing, it is empty). -/
theorem C10_frame_and_fresh_batch (s : RunOsState) (events : List Event) :
    (call s events).1.procs = s.procs ∧
      (call s events).1.in_cpu = s.in_cpu ∧
      (call s events).1.wait_io = s.wait_io ∧
      (call s events).1.wait_page = s.wait_page ∧
      (call s events).1.ram_pages = s.ram_pages ∧
      (call s events).1.swap_pages = s.swap_pages ∧
      (call s events).2 = (call s events).1._event_queue ∧
      ∀ q, (call { s with _event_queue := q } events).2 = (call s events).2 := by
  rw [call_eq]
  exact ⟨rfl, rfl, rfl, rfl, rfl, rfl, rfl, fun q => by rw [call_eq]⟩

end AutomatedSkeleton
